import Mathlib

/-!
Formal model of the patroneos request-filtering proxy (EOSIO/patroneos).

The definitions below are translated from `filter.go` (the middleware
pipeline, transaction extraction, forwarding) and `main.go` (the
configuration data and the live configuration endpoint).  JSON handling
models the parts of Go's `encoding/json` package the program relies on:
`json.Valid`, `json.Unmarshal` into the `Transaction` shape, and
`json.Unmarshal` of a configuration body over the existing configuration.
-/

namespace Patroneos

/-- JSON values as decoded by Go's `encoding/json`.  A number records its
integer value together with a flag saying whether the literal was a plain
integer (no fraction and no exponent part); only such literals may be
decoded into a Go `int` field. -/
inductive Json where
  | null : Json
  | bool (b : Bool) : Json
  | num (v : Int) (intLit : Bool) : Json
  | str (s : String) : Json
  | arr (elems : List Json) : Json
  | obj (fields : List (String × Json)) : Json
deriving Repr

/-- JSON insignificant whitespace (RFC 8259): space, tab, newline, return. -/
def isJsonWs (c : Char) : Bool :=
  c = ' ' || c = '\t' || c = '\n' || c = '\r'

/-- Drop leading JSON whitespace. -/
def skipWs (cs : List Char) : List Char :=
  cs.dropWhile isJsonWs

/-- Value of a hexadecimal digit. -/
def hexVal (c : Char) : Option Nat :=
  if c.isDigit then some (c.toNat - '0'.toNat)
  else if 'a' ≤ c ∧ c ≤ 'f' then some (c.toNat - 'a'.toNat + 10)
  else if 'A' ≤ c ∧ c ≤ 'F' then some (c.toNat - 'A'.toNat + 10)
  else none

/-- Body of a JSON string literal, after the opening quote: returns the
decoded characters and the input remaining after the closing quote. -/
def parseStringBody : List Char → Option (List Char × List Char)
  | [] => none
  | '\"' :: rest => some ([], rest)
  | '\\' :: 'u' :: h1 :: h2 :: h3 :: h4 :: rest =>
    match hexVal h1, hexVal h2, hexVal h3, hexVal h4 with
    | some a, some b, some c, some d =>
      (parseStringBody rest).map
        (fun p => (Char.ofNat (((a * 16 + b) * 16 + c) * 16 + d) :: p.1, p.2))
    | _, _, _, _ => none
  | '\\' :: e :: rest =>
    let decoded : Option Char :=
      if e = '\"' then some '\"'
      else if e = '\\' then some '\\'
      else if e = '/' then some '/'
      else if e = 'b' then some (Char.ofNat 8)
      else if e = 'f' then some (Char.ofNat 12)
      else if e = 'n' then some '\n'
      else if e = 'r' then some '\r'
      else if e = 't' then some '\t'
      else none
    match decoded with
    | some c => (parseStringBody rest).map (fun p => (c :: p.1, p.2))
    | none => none
  | c :: rest =>
    if c.toNat < 32 then none
    else (parseStringBody rest).map (fun p => (c :: p.1, p.2))

/-- Numeric value of a list of decimal digits. -/
def digitsToNat (ds : List Char) : Nat :=
  ds.foldl (fun acc c => acc * 10 + (c.toNat - '0'.toNat)) 0

/-- A JSON number literal at the head of the input (RFC 8259 grammar:
optional minus, integer part without leading zeros, optional fraction,
optional exponent). -/
def parseNumber (cs : List Char) : Option (Json × List Char) :=
  let signSplit : Bool × List Char :=
    match cs with
    | '-' :: rest => (true, rest)
    | _ => (false, cs)
  let neg := signSplit.1
  let intRes : Option (Nat × List Char) :=
    match signSplit.2 with
    | '0' :: rest => some (0, rest)
    | c :: _ =>
      if c.isDigit then
        let p := signSplit.2.span (fun d => d.isDigit)
        some (digitsToNat p.1, p.2)
      else none
    | [] => none
  match intRes with
  | none => none
  | some (n, cs2) =>
    let fracRes : Option (Bool × List Char) :=
      match cs2 with
      | '.' :: rest =>
        let p := rest.span (fun d => d.isDigit)
        if p.1.isEmpty then none else some (true, p.2)
      | _ => some (false, cs2)
    match fracRes with
    | none => none
    | some (hasFrac, cs3) =>
      let expRes : Option (Bool × List Char) :=
        match cs3 with
        | c :: rest =>
          if c = 'e' ∨ c = 'E' then
            let rest2 :=
              match rest with
              | s :: r2 => if s = '+' ∨ s = '-' then r2 else rest
              | [] => rest
            let p := rest2.span (fun d => d.isDigit)
            if p.1.isEmpty then none else some (true, p.2)
          else some (false, cs3)
        | [] => some (false, cs3)
      match expRes with
      | none => none
      | some (hasExp, cs4) =>
        let v : Int := if neg then -(n : Int) else (n : Int)
        some (.num v (!hasFrac && !hasExp), cs4)

mutual

/-- One JSON value at the head of the input, fuelled recursive descent. -/
def parseValue : Nat → List Char → Option (Json × List Char)
  | 0, _ => none
  | fuel + 1, cs =>
    match skipWs cs with
    | 'n' :: 'u' :: 'l' :: 'l' :: rest => some (.null, rest)
    | 't' :: 'r' :: 'u' :: 'e' :: rest => some (.bool true, rest)
    | 'f' :: 'a' :: 'l' :: 's' :: 'e' :: rest => some (.bool false, rest)
    | '\"' :: rest =>
      match parseStringBody rest with
      | some (chars, rest2) => some (.str (String.mk chars), rest2)
      | none => none
    | '[' :: rest =>
      match skipWs rest with
      | ']' :: rest2 => some (.arr [], rest2)
      | _ =>
        match parseElems fuel rest with
        | some (elems, rest2) => some (.arr elems, rest2)
        | none => none
    | '\x7b' :: rest =>
      match skipWs rest with
      | '\x7d' :: rest2 => some (.obj [], rest2)
      | _ =>
        match parseFields fuel rest with
        | some (fields, rest2) => some (.obj fields, rest2)
        | none => none
    | cs2 => parseNumber cs2

/-- Comma-separated JSON array elements up to the closing bracket. -/
def parseElems : Nat → List Char → Option (List Json × List Char)
  | 0, _ => none
  | fuel + 1, cs =>
    match parseValue fuel cs with
    | none => none
    | some (v, rest) =>
      match skipWs rest with
      | ',' :: rest2 =>
        match parseElems fuel rest2 with
        | some (vs, rest3) => some (v :: vs, rest3)
        | none => none
      | ']' :: rest2 => some ([v], rest2)
      | _ => none

/-- Comma-separated JSON object members up to the closing brace. -/
def parseFields : Nat → List Char → Option (List (String × Json) × List Char)
  | 0, _ => none
  | fuel + 1, cs =>
    match skipWs cs with
    | '\"' :: rest =>
      match parseStringBody rest with
      | none => none
      | some (keyChars, rest2) =>
        match skipWs rest2 with
        | ':' :: rest3 =>
          match parseValue fuel rest3 with
          | none => none
          | some (v, rest4) =>
            match skipWs rest4 with
            | ',' :: rest5 =>
              match parseFields fuel rest5 with
              | some (fs, rest6) => some ((String.mk keyChars, v) :: fs, rest6)
              | none => none
            | '\x7d' :: rest5 => some ([(String.mk keyChars, v)], rest5)
            | _ => none
        | _ => none
    | _ => none

end

/-- Parse a whole JSON document: one value followed only by whitespace. -/
def parseJsonText (s : String) : Option Json :=
  match parseValue (2 * s.data.length + 2) s.data with
  | some (v, rest) => if (skipWs rest).isEmpty then some v else none
  | none => none

/-- Models Go's `json.Valid`: the bytes are one syntactically well-formed
JSON value (of any kind). -/
def jsonValid (s : String) : Bool :=
  (parseJsonText s).isSome

/-- Field lookup in a decoded JSON object as Go does it: with a duplicated
key the last occurrence wins. -/
def lookupField (fields : List (String × Json)) (key : String) : Option Json :=
  (fields.reverse.find? (fun kv => kv.1 = key)).map (fun kv => kv.2)

/-- Decode a JSON value into a Go string field (null is a no-op, leaving
the zero value). -/
def decodeStringGo : Json → Option String
  | .str s => some s
  | .null => some ""
  | _ => none

/-- Decode a JSON value into a Go []string field. -/
def decodeStringListGo : Json → Option (List String)
  | .null => some []
  | .arr xs => xs.mapM decodeStringGo
  | _ => none

/-- Decode a JSON value into a Go []interface field: any array of values. -/
def decodeAnyListGo : Json → Option (List Json)
  | .null => some []
  | .arr xs => some xs
  | _ => none

/-- Decode a JSON value into a Go bool field. -/
def decodeBoolGo : Json → Option Bool
  | .bool b => some b
  | .null => some false
  | _ => none

/-- Decode a JSON value into a Go int field: only plain integer literals. -/
def decodeIntGo : Json → Option Int
  | .num v true => some v
  | _ => none

/-- Decode one struct field: an absent key leaves the zero value. -/
def decodeFieldD (fields : List (String × Json)) (key : String)
    (dec : Json → Option α) (dflt : α) : Option α :=
  match lookupField fields key with
  | none => some dflt
  | some j => dec j

/-- Action from filter.go: one operation inside a transaction payload. -/
structure Action where
  code : String
  type : String
  recipients : List String
  authorization : List Json
  data : String
deriving Repr

/-- The zero Action value. -/
def zeroAction : Action :=
  ⟨"", "", [], [], ""⟩

/-- Decode a JSON value into an Action per its json tags. -/
def decodeAction : Json → Option Action
  | .null => some zeroAction
  | .obj fs => do
    let code ← decodeFieldD fs "code" decodeStringGo ""
    let ty ← decodeFieldD fs "type" decodeStringGo ""
    let recipients ← decodeFieldD fs "recipients" decodeStringListGo []
    let auth ← decodeFieldD fs "authorization" decodeAnyListGo []
    let dat ← decodeFieldD fs "data" decodeStringGo ""
    some ⟨code, ty, recipients, auth, dat⟩
  | _ => none

/-- Decode a JSON value into a Go []Action field. -/
def decodeActionListGo : Json → Option (List Action)
  | .null => some []
  | .arr xs => xs.mapM decodeAction
  | _ => none

/-- Transaction from filter.go: one unit of chain work. -/
structure Transaction where
  refBlockNum : String
  refBlockPrefix : String
  expiration : String
  scope : List String
  actions : List Action
  signatures : List String
  authorizations : List Json
deriving Repr

/-- The zero Transaction value. -/
def zeroTransaction : Transaction :=
  ⟨"", "", "", [], [], [], []⟩

/-- Decode a JSON value into a Transaction per its json tags. -/
def decodeTransaction : Json → Option Transaction
  | .null => some zeroTransaction
  | .obj fs => do
    let rbn ← decodeFieldD fs "ref_block_num" decodeStringGo ""
    let rbp ← decodeFieldD fs "ref_block_prefix" decodeStringGo ""
    let exp ← decodeFieldD fs "expiration" decodeStringGo ""
    let scope ← decodeFieldD fs "scope" decodeStringListGo []
    let actions ← decodeFieldD fs "actions" decodeActionListGo []
    let sigs ← decodeFieldD fs "signatures" decodeStringListGo []
    let auths ← decodeFieldD fs "authorizations" decodeAnyListGo []
    some ⟨rbn, rbp, exp, scope, actions, sigs, auths⟩
  | _ => none

/-- Decode a JSON value into a Go []Transaction. -/
def decodeTransactionList : Json → Option (List Transaction)
  | .null => some []
  | .arr xs => xs.mapM decodeTransaction
  | _ => none

/-- Models json.Unmarshal of the body into a single Transaction. -/
def unmarshalTransaction (s : String) : Option Transaction :=
  (parseJsonText s).bind decodeTransaction

/-- Models json.Unmarshal of the body into a []Transaction. -/
def unmarshalTransactionList (s : String) : Option (List Transaction) :=
  (parseJsonText s).bind decodeTransactionList

/-- Whitespace trimmed by Go strings.TrimSpace (unicode.IsSpace, the ASCII
range). -/
def isGoSpace (c : Char) : Bool :=
  c = ' ' || c = '\t' || c = '\n' || c = '\x0b' || c = '\x0c' || c = '\r'

/-- Models Go strings.TrimSpace. -/
def goTrimSpace (s : String) : String :=
  String.mk (((s.data.dropWhile isGoSpace).reverse.dropWhile isGoSpace).reverse)

/-- strings.HasPrefix with the one-byte pattern getTransactions uses:
does the string open with the given character. -/
def firstCharIs (s : String) (c : Char) : Bool :=
  match s.data with
  | [] => false
  | c2 :: _ => c2 = c


/-- The slice of an inbound http.Request that the filter reads: the body
bytes, the context value stored under transactionsKey, the client address
data read by getHost, and the method and URL used by the forwarder. -/
structure Request where
  method : String
  url : String
  body : String
  xForwardedFor : String
  remoteAddr : String
  ctx : Option (List Transaction)
deriving Repr

/-- An HTTP response as observed by the client: status code, headers
(each name with its added values, in order), body bytes. -/
structure HttpResponse where
  status : Nat
  headers : List (String × List String)
  body : String
deriving Repr, DecidableEq

/-- Log from the repository's log-mode source (the log.go segment shipped
under docker/proxy): the fields needed for the Fail2Ban logs — remote
host, success flag, message — with json tags host, success, message.
This is the event record logFailure and logSuccess marshal and post to
every configured log endpoint. -/
structure Log where
  host : String
  success : Bool
  message : String
deriving Repr, DecidableEq

/-- Modelled from the spec: the Config structure read by the filter.  The
sources declare a Config in main.go with the fields through
maxTransactionSize; the fields maxTransactions, logEndpoints,
filterEndpoints and logFileLocation are read by filter.go but their
current declaration is not among the given sources, so they are taken
from the configuration field list of the spec.  The contract blacklist is
a map from contract name to bool, modelled as an association list with
distinct keys. -/
structure Config where
  listenPort : String
  nodeosProtocol : String
  nodeosUrl : String
  nodeosPort : String
  contractBlackList : List (String × Bool)
  maxSignatures : Int
  maxTransactionSize : Int
  maxTransactions : Int
  logEndpoints : List String
  filterEndpoints : List String
  logFileLocation : String
deriving Repr, DecidableEq

/-- getHost from filter.go: the X-Forwarded-For header when present,
otherwise the remote address of the connection. -/
def getHost (r : Request) : String :=
  if r.xForwardedFor ≠ "" then r.xForwardedFor else r.remoteAddr

/-- Escaping applied by Go's JSON string encoder to the characters that
occur in the reason codes the filter writes. -/
def jsonEscapeChar (c : Char) : List Char :=
  if c = '\"' then ['\\', '\"']
  else if c = '\\' then ['\\', '\\']
  else if c = '\n' then ['\\', 'n']
  else if c = '\r' then ['\\', 'r']
  else if c = '\t' then ['\\', 't']
  else [c]

/-- JSON string escaping, character by character. -/
def jsonEscape (s : String) : String :=
  String.mk (s.data.flatMap jsonEscapeChar)

/-- json.Marshal of the ErrorMessage structure of filter.go: the message
field followed by the code field. -/
def errorMessageBody (message : String) (code : Int) : String :=
  "\x7b\"message\":\"" ++ jsonEscape message ++ "\",\"code\":" ++ toString code ++ "\x7d"

/-- The client response written by logFailure when it is handed a
response writer: the X-REJECTED-BY and CONTENT-TYPE headers are added,
the status is set to 400 and the marshalled ErrorMessage is the body. -/
def rejectionResponse (message : String) : HttpResponse :=
  { status := 400
    headers := [("X-REJECTED-BY", ["patroneos"]), ("CONTENT-TYPE", ["application/json"])]
    body := errorMessageBody message 400 }

/-- The event record logFailure builds (and posts to every configured log
endpoint, and prints locally). -/
def failureEvent (r : Request) (message : String) : Log :=
  { host := getHost r, success := false, message := message }

/-- The event record logSuccess builds. -/
def successEvent (r : Request) (message : String) : Log :=
  { host := getHost r, success := true, message := message }

/-- getTransactions from filter.go.  With no context value set, the body
is read, trimmed, and dispatched on its first byte: a leading brace
unmarshals one Transaction, a leading bracket unmarshals a slice, any
other body yields the empty slice; the result is stored in the request
context.  With a context value set, the cached slice is returned
untouched.  An unmarshal error is the PARSE_ERROR error value. -/
def getTransactions (r : Request) :
    Except String (List Transaction × Option (List Transaction)) :=
  match r.ctx with
  | none =>
    let body := goTrimSpace r.body
    if firstCharIs body '\x7b' then
      match unmarshalTransaction r.body with
      | none => .error "PARSE_ERROR"
      | some t => .ok ([t], some [t])
    else if firstCharIs body '[' then
      match unmarshalTransactionList r.body with
      | none => .error "PARSE_ERROR"
      | some ts => .ok (ts, some ts)
    else .ok ([], some [])
  | some ts => .ok (ts, some ts)

/-- What one validation stage decides on a request: write a rejection
through logFailure and return, or hand a (possibly context-enriched)
request to the next handler. -/
inductive StageResult where
  | reject (reason : String)
  | pass (r : Request)
deriving Repr

/-- validateJSON from filter.go: a non-empty body that is not valid JSON
is rejected with INVALID_JSON; the body is restored and passed on
otherwise. -/
def validateJSONCheck (r : Request) : StageResult :=
  if r.body.utf8ByteSize > 0 then
    if jsonValid r.body = false then .reject "INVALID_JSON" else .pass r
  else .pass r

/-- validateMaxTransactions from filter.go. -/
def validateMaxTransactionsCheck (cfg : Config) (r : Request) : StageResult :=
  match getTransactions r with
  | .error e => .reject e
  | .ok (transactions, ctx) =>
    if (transactions.length : Int) > cfg.maxTransactions then
      .reject "TOO_MANY_TRANSACTIONS"
    else .pass { r with ctx := ctx }

/-- validateTransactionSize from filter.go: the data payload of every
action of every transaction must fit in maxTransactionSize bytes. -/
def validateTransactionSizeCheck (cfg : Config) (r : Request) : StageResult :=
  match getTransactions r with
  | .error e => .reject e
  | .ok (transactions, ctx) =>
    if transactions.any (fun t =>
        t.actions.any (fun a => ((a.data.utf8ByteSize : Int) > cfg.maxTransactionSize : Bool))) then
      .reject "INVALID_TRANSACTION_SIZE"
    else .pass { r with ctx := ctx }

/-- validateMaxSignatures from filter.go: no transaction may carry more
than maxSignatures signatures. -/
def validateMaxSignaturesCheck (cfg : Config) (r : Request) : StageResult :=
  match getTransactions r with
  | .error e => .reject e
  | .ok (transactions, ctx) =>
    if transactions.any (fun t => ((t.signatures.length : Int) > cfg.maxSignatures : Bool)) then
      .reject "INVALID_NUMBER_SIGNATURES"
    else .pass { r with ctx := ctx }

/-- Membership of a key in the contract blacklist map: the comma-ok map
read of validateContract tests only key existence. -/
def blackListHasKey (bl : List (String × Bool)) (code : String) : Bool :=
  bl.any (fun kv => kv.1 = code)

/-- validateContract from filter.go: no action of any transaction may
name a blacklisted contract code. -/
def validateContractCheck (cfg : Config) (r : Request) : StageResult :=
  match getTransactions r with
  | .error e => .reject e
  | .ok (transactions, ctx) =>
    if transactions.any (fun t =>
        t.actions.any (fun a => blackListHasKey cfg.contractBlackList a.code)) then
      .reject "BLACKLISTED_CONTRACT"
    else .pass { r with ctx := ctx }

/-- Identifiers for the pipeline members, used to record which handlers
ran on a request. -/
inductive StageId where
  | vJson
  | vMaxTransactions
  | vTransactionSize
  | vMaxSignatures
  | vContract
  | forwarder
deriving Repr, DecidableEq

/-- What the whole pipeline did with a request: a stage rejected it
(writing the 400 response and emitting the failure event), or the
forwarder mirrored an upstream response (emitting its event), or the
round trip to the upstream node failed and nothing was written. -/
inductive Outcome where
  | rejected (reason : String) (resp : HttpResponse) (event : Log)
  | forwarded (resp : HttpResponse) (event : Log)
  | transportError
deriving Repr, DecidableEq

/-- A handler maps a request to the list of pipeline members that ran and
the outcome. -/
abbrev Handler := Request → List StageId × Outcome

/-- The middleware shape of filter.go. -/
abbrev Middleware := Handler → Handler

/-- chainMiddleware from filter.go: walk the middleware list in reverse
order, wrapping each around the handler built so far. -/
def chainMiddleware (mws : List Middleware) : Middleware :=
  fun final => mws.foldr (fun m acc => m acc) final

/-- One validation stage as a middleware: on a violation, logFailure
writes the rejection and the stage returns without calling the next
handler; otherwise the next handler receives the passed-on request.  The
trace records that the stage ran. -/
def liftStage (sid : StageId) (check : Request → StageResult) : Middleware :=
  fun next r =>
    match check r with
    | .reject reason =>
      ([sid], .rejected reason (rejectionResponse reason) (failureEvent r reason))
    | .pass r2 =>
      let p := next r2
      (sid :: p.1, p.2)

/-- copyHeaders from filter.go: every upstream header except
Content-Length, which the local server recomputes. -/
def copyHeaders (upstream : List (String × List String)) : List (String × List String) :=
  upstream.filter (fun kv => kv.1 ≠ "Content-Length")

/-- forwardCallToNodeos from filter.go, with the upstream round trip
supplied as a parameter (none models an error creating or executing the
outbound request: the handler logs locally and returns without writing a
response).  On a completed round trip, status 200 emits a success event
and any other status emits a TRANSACTION_FAILED failure event with a nil
response writer; either way the upstream status, headers (except
Content-Length) and body are copied to the client. -/
def forwardCallToNodeos (up : Option HttpResponse) (r : Request) : Outcome :=
  match up with
  | none => .transportError
  | some res =>
    let event :=
      if res.status = 200 then successEvent r "SUCCESS"
      else failureEvent r "TRANSACTION_FAILED"
    .forwarded { status := res.status, headers := copyHeaders res.headers, body := res.body } event

/-- The five filter stages in the order addFilterHandlers passes them to
chainMiddleware. -/
def filterStages (cfg : Config) : List (StageId × (Request → StageResult)) :=
  [ (.vJson, validateJSONCheck),
    (.vMaxTransactions, validateMaxTransactionsCheck cfg),
    (.vTransactionSize, validateTransactionSizeCheck cfg),
    (.vMaxSignatures, validateMaxSignaturesCheck cfg),
    (.vContract, validateContractCheck cfg) ]

/-- The fixed evaluation order of the rule stages. -/
def stageOrder : List StageId :=
  [.vJson, .vMaxTransactions, .vTransactionSize, .vMaxSignatures, .vContract]

/-- Compose a list of validation stages around a final handler. -/
def runStages (stages : List (StageId × (Request → StageResult))) (final : Handler) : Handler :=
  chainMiddleware (stages.map (fun s => liftStage s.1 s.2)) final

/-- The forwarder as the terminal handler of the chain. -/
def forwardHandler (up : Option HttpResponse) : Handler :=
  fun r => ([.forwarder], forwardCallToNodeos up r)

/-- The composed filter pipeline that addFilterHandlers mounts on the
root path. -/
def runFilter (cfg : Config) (up : Option HttpResponse) (r : Request) :
    List StageId × Outcome :=
  runStages (filterStages cfg) (forwardHandler up) r


/-- The fields of one configuration JSON body, as json.Unmarshal sees
them: each key may be present (with a decoded value) or absent.  A null
value leaves the existing field untouched, like an absent key. -/
structure ConfigPatch where
  listenPort : Option String
  nodeosProtocol : Option String
  nodeosUrl : Option String
  nodeosPort : Option String
  contractBlackList : Option (List (String × Bool))
  maxSignatures : Option Int
  maxTransactionSize : Option Int
  maxTransactions : Option Int
  logEndpoints : Option (List String)
  filterEndpoints : Option (List String)
  logFileLocation : Option String
deriving Repr, DecidableEq

/-- Decode one field of a configuration body: absent or null keys decode
to none, present keys must decode with the field decoder. -/
def patchField (fields : List (String × Json)) (key : String)
    (dec : Json → Option α) : Option (Option α) :=
  match lookupField fields key with
  | none => some none
  | some .null => some none
  | some j => (dec j).map some

/-- Decode a JSON value into the map\[string\]bool blacklist field. -/
def decodeBlackListGo : Json → Option (List (String × Bool))
  | .obj fs => fs.mapM (fun kv => (decodeBoolGo kv.2).map (fun b => (kv.1, b)))
  | _ => none

/-- Decode a configuration body into its patch of present fields. -/
def decodeConfigPatch : Json → Option ConfigPatch
  | .obj fs => do
    let lp ← patchField fs "listenPort" decodeStringGo
    let np ← patchField fs "nodeosProtocol" decodeStringGo
    let nu ← patchField fs "nodeosUrl" decodeStringGo
    let np2 ← patchField fs "nodeosPort" decodeStringGo
    let bl ← patchField fs "contractBlackList" decodeBlackListGo
    let ms ← patchField fs "maxSignatures" decodeIntGo
    let mts ← patchField fs "maxTransactionSize" decodeIntGo
    let mt ← patchField fs "maxTransactions" decodeIntGo
    let le ← patchField fs "logEndpoints" decodeStringListGo
    let fe ← patchField fs "filterEndpoints" decodeStringListGo
    let lfl ← patchField fs "logFileLocation" decodeStringGo
    some ⟨lp, np, nu, np2, bl, ms, mts, mt, le, fe, lfl⟩
  | .null => some ⟨none, none, none, none, none, none, none, none, none, none, none⟩
  | _ => none

/-- json.Unmarshal into an existing map keeps the entries whose keys are
absent from the JSON object and adds or overwrites the decoded ones. -/
def mergeBlackList (old add : List (String × Bool)) : List (String × Bool) :=
  old.filter (fun kv => !(add.any (fun kv2 => kv2.1 = kv.1))) ++ add

/-- The effect of json.Unmarshal of a configuration body over the
existing Config value: a field named in the body is replaced, a field the
body omits keeps its previous value, and the blacklist map is merged. -/
def applyConfigPatch (cfg : Config) (p : ConfigPatch) : Config :=
  { listenPort := p.listenPort.getD cfg.listenPort
    nodeosProtocol := p.nodeosProtocol.getD cfg.nodeosProtocol
    nodeosUrl := p.nodeosUrl.getD cfg.nodeosUrl
    nodeosPort := p.nodeosPort.getD cfg.nodeosPort
    contractBlackList :=
      match p.contractBlackList with
      | none => cfg.contractBlackList
      | some add => mergeBlackList cfg.contractBlackList add
    maxSignatures := p.maxSignatures.getD cfg.maxSignatures
    maxTransactionSize := p.maxTransactionSize.getD cfg.maxTransactionSize
    maxTransactions := p.maxTransactions.getD cfg.maxTransactions
    logEndpoints := p.logEndpoints.getD cfg.logEndpoints
    filterEndpoints := p.filterEndpoints.getD cfg.filterEndpoints
    logFileLocation := p.logFileLocation.getD cfg.logFileLocation }

/-- json.Unmarshal(body, &appConfig) as updateConfig calls it: parse the
body and decode it over the existing configuration; a syntax or type
error leaves the configuration unchanged. -/
def unmarshalConfigInto (cfg : Config) (body : String) : Option Config :=
  match (parseJsonText body).bind decodeConfigPatch with
  | none => none
  | some p => some (applyConfigPatch cfg p)

/-- What one call of the configuration endpoint produced: the
configuration afterwards, the response body of a GET (the marshalled
current configuration, modelled structurally since MarshalIndent only
adds formatting), and the bytes written to the configuration file. -/
structure ConfigEndpointResult where
  config : Config
  response : Option Config
  fileWrite : Option String
deriving Repr, DecidableEq

/-- updateConfig from main.go: GET writes the marshalled current
configuration; POST unmarshals the request body over the current
configuration and persists the raw body bytes to the configuration file;
an unmarshal error changes nothing and writes no file; any other method
does nothing. -/
def updateConfig (cfg : Config) (method : String) (body : String) : ConfigEndpointResult :=
  if method = "GET" then ⟨cfg, some cfg, none⟩
  else if method = "POST" then
    match unmarshalConfigInto cfg body with
    | none => ⟨cfg, none, none⟩
    | some cfg2 => ⟨cfg2, none, some body⟩
  else ⟨cfg, none, none⟩


/-- Sample configuration: the one the tests of filter.go install
(currency blacklisted, one signature, fifty bytes, two transactions). -/
def sampleConfig : Config :=
  { listenPort := "8080", nodeosProtocol := "http", nodeosUrl := "localhost",
    nodeosPort := "8888", contractBlackList := [("currency", true)],
    maxSignatures := 1, maxTransactionSize := 50, maxTransactions := 2,
    logEndpoints := ["http://relay"], filterEndpoints := [], logFileLocation := "" }

/-- A concrete inbound request with the given body. -/
def sampleRequest (b : String) : Request :=
  { method := "POST", url := "/", body := b, xForwardedFor := "",
    remoteAddr := "192.168.0.1", ctx := none }

/-- A concrete upstream response. -/
def sampleUpstream : HttpResponse :=
  { status := 200, headers := [("Content-Length", ["5"]), ("X-Up", ["yes"])], body := "hello" }

/-- The blacklisted action of the test scenario of filter.go. -/
def currencyAction : Action :=
  ⟨"currency", "", [], [], "1234567890"⟩

/-- The transaction of the test scenario of filter.go. -/
def currencyTransaction : Transaction :=
  ⟨"", "", "", [], [currencyAction], ["12345"], []⟩

/-- The body of the blacklist test scenario. -/
def currencyBody : String :=
  "\x7b\"actions\":[\x7b\"code\":\"currency\",\"data\":\"1234567890\"\x7d],\"signatures\":[\"12345\"]\x7d"

theorem runStages_nil (final : Handler) (r : Request) :
    runStages [] final r = final r := rfl

theorem runStages_cons (s : StageId × (Request → StageResult))
    (stages : List (StageId × (Request → StageResult))) (final : Handler) (r : Request) :
    runStages (s :: stages) final r = liftStage s.1 s.2 (runStages stages final) r := rfl

theorem forwardHandler_ne_rejected (up : Option HttpResponse) (r : Request)
    (reason : String) (resp : HttpResponse) (ev : Log) :
    (forwardHandler up r).2 ≠ .rejected reason resp ev := by
  cases up with
  | none => simp [forwardHandler, forwardCallToNodeos]
  | some res => simp [forwardHandler, forwardCallToNodeos]

/-- A rejection of the composed stage chain executes a prefix of the
stage list (ending at the rejecting stage) and its response is the one
logFailure writes for the reason. -/
theorem runStages_rejected_spec (stages : List (StageId × (Request → StageResult)))
    (final : Handler)
    (hfin : ∀ r2 reason2 resp2 ev2, (final r2).2 ≠ .rejected reason2 resp2 ev2)
    (r : Request) (reason : String) (resp : HttpResponse) (ev : Log)
    (h : (runStages stages final r).2 = .rejected reason resp ev) :
    (∃ k, 0 < k ∧ k ≤ stages.length ∧
      (runStages stages final r).1 = (stages.map (fun s => s.1)).take k) ∧
    resp = rejectionResponse reason := by
  induction stages generalizing r with
  | nil => exact absurd h (hfin r reason resp ev)
  | cons s rest ih =>
    cases hc : s.2 r with
    | reject reason2 =>
      rw [runStages_cons] at h ⊢
      unfold liftStage at h ⊢
      rw [hc] at h ⊢
      simp at h ⊢
      obtain ⟨h1, h2, h3⟩ := h
      exact ⟨⟨1, by omega, by simp, rfl⟩, by rw [← h1, ← h2]⟩
    | pass r2 =>
      rw [runStages_cons] at h ⊢
      unfold liftStage at h ⊢
      rw [hc] at h ⊢
      simp at h ⊢
      obtain ⟨⟨k, hk0, hkle, htr⟩, hresp⟩ := ih r2 h
      refine ⟨⟨k + 1, by omega, by simpa using hkle, ?_⟩, hresp⟩
      simp [htr]

/-- A forwarded outcome of the composed stage chain is produced by the
final handler on some request. -/
theorem runStages_forwarded_final (stages : List (StageId × (Request → StageResult)))
    (final : Handler) (r : Request) (resp : HttpResponse) (ev : Log)
    (h : (runStages stages final r).2 = .forwarded resp ev) :
    ∃ r2, (final r2).2 = .forwarded resp ev := by
  induction stages generalizing r with
  | nil => exact ⟨r, h⟩
  | cons s rest ih =>
    cases hc : s.2 r with
    | reject reason2 =>
      rw [runStages_cons] at h
      unfold liftStage at h
      rw [hc] at h
      simp at h
    | pass r2 =>
      rw [runStages_cons] at h
      unfold liftStage at h
      rw [hc] at h
      simp at h
      exact ih r2 h


theorem getTransactions_cached (r : Request) (ts : List Transaction)
    (h : r.ctx = some ts) : getTransactions r = .ok (ts, some ts) := by
  unfold getTransactions
  rw [h]

theorem getTransactions_notShaped (r : Request) (hctx : r.ctx = none)
    (h1 : firstCharIs (goTrimSpace r.body) '\x7b' = false)
    (h2 : firstCharIs (goTrimSpace r.body) '[' = false) :
    getTransactions r = .ok ([], some []) := by
  unfold getTransactions
  rw [hctx]
  simp [h1, h2]

/-- A successful extraction always caches exactly the returned slice. -/
theorem getTransactions_ctx_eq (r : Request) (ts : List Transaction)
    (ctx : Option (List Transaction)) (h : getTransactions r = .ok (ts, ctx)) :
    ctx = some ts := by
  unfold getTransactions at h
  cases hctx : r.ctx with
  | some ts2 =>
    rw [hctx] at h
    simp at h
    rw [← h.2, h.1]
  | none =>
    rw [hctx] at h
    dsimp only at h
    split_ifs at h
    all_goals repeat' split at h
    all_goals try simp_all
    all_goals exact h.2.symm.trans (congrArg some h.1)

/-- Extraction only ever fails with the PARSE_ERROR reason. -/
theorem getTransactions_error_eq (r : Request) (e : String)
    (h : getTransactions r = .error e) : e = "PARSE_ERROR" := by
  unfold getTransactions at h
  cases hctx : r.ctx with
  | some ts2 => rw [hctx] at h; simp at h
  | none =>
    rw [hctx] at h
    dsimp only at h
    split_ifs at h
    all_goals repeat' split at h
    all_goals simp_all

theorem validateJSONCheck_pass_empty (r : Request) (h : r.body = "") :
    validateJSONCheck r = .pass r := by
  unfold validateJSONCheck
  rw [h]
  have h0 : ("" : String).utf8ByteSize = 0 := rfl
  rw [h0]
  simp

theorem validateJSONCheck_pass_valid (r : Request) (h : jsonValid r.body = true) :
    validateJSONCheck r = .pass r := by
  unfold validateJSONCheck
  rw [h]
  simp

theorem validateMaxTransactionsCheck_pass (cfg : Config) (r : Request)
    (ts : List Transaction) (ctx : Option (List Transaction))
    (hg : getTransactions r = .ok (ts, ctx))
    (hle : ¬((ts.length : Int) > cfg.maxTransactions)) :
    validateMaxTransactionsCheck cfg r = .pass { r with ctx := ctx } := by
  unfold validateMaxTransactionsCheck
  rw [hg]
  simp [hle]

theorem validateTransactionSizeCheck_pass (cfg : Config) (r : Request)
    (ts : List Transaction) (ctx : Option (List Transaction))
    (hg : getTransactions r = .ok (ts, ctx))
    (hok : ts.any (fun t =>
      t.actions.any (fun a => ((a.data.utf8ByteSize : Int) > cfg.maxTransactionSize : Bool))) = false) :
    validateTransactionSizeCheck cfg r = .pass { r with ctx := ctx } := by
  unfold validateTransactionSizeCheck
  rw [hg]
  simp [hok]

theorem validateMaxSignaturesCheck_pass (cfg : Config) (r : Request)
    (ts : List Transaction) (ctx : Option (List Transaction))
    (hg : getTransactions r = .ok (ts, ctx))
    (hok : ts.any (fun t => ((t.signatures.length : Int) > cfg.maxSignatures : Bool)) = false) :
    validateMaxSignaturesCheck cfg r = .pass { r with ctx := ctx } := by
  unfold validateMaxSignaturesCheck
  rw [hg]
  simp [hok]

theorem validateContractCheck_pass (cfg : Config) (r : Request)
    (ts : List Transaction) (ctx : Option (List Transaction))
    (hg : getTransactions r = .ok (ts, ctx))
    (hok : ts.any (fun t =>
      t.actions.any (fun a => blackListHasKey cfg.contractBlackList a.code)) = false) :
    validateContractCheck cfg r = .pass { r with ctx := ctx } := by
  unfold validateContractCheck
  rw [hg]
  simp [hok]

theorem validateMaxTransactionsCheck_error (cfg : Config) (r : Request) (e : String)
    (hg : getTransactions r = .error e) :
    validateMaxTransactionsCheck cfg r = .reject e := by
  unfold validateMaxTransactionsCheck
  rw [hg]

theorem validateTransactionSizeCheck_error (cfg : Config) (r : Request) (e : String)
    (hg : getTransactions r = .error e) :
    validateTransactionSizeCheck cfg r = .reject e := by
  unfold validateTransactionSizeCheck
  rw [hg]

theorem validateMaxSignaturesCheck_error (cfg : Config) (r : Request) (e : String)
    (hg : getTransactions r = .error e) :
    validateMaxSignaturesCheck cfg r = .reject e := by
  unfold validateMaxSignaturesCheck
  rw [hg]

theorem validateContractCheck_error (cfg : Config) (r : Request) (e : String)
    (hg : getTransactions r = .error e) :
    validateContractCheck cfg r = .reject e := by
  unfold validateContractCheck
  rw [hg]

theorem liftStage_pass (sid : StageId) (check : Request → StageResult) (next : Handler)
    (rA rB : Request) (hc : check rA = .pass rB) :
    liftStage sid check next rA = (sid :: (next rB).1, (next rB).2) := by
  unfold liftStage
  rw [hc]

theorem liftStage_reject (sid : StageId) (check : Request → StageResult) (next : Handler)
    (rA : Request) (reason : String) (hc : check rA = .reject reason) :
    liftStage sid check next rA =
      ([sid], .rejected reason (rejectionResponse reason) (failureEvent rA reason)) := by
  unfold liftStage
  rw [hc]

/-- C1: if a rule stage of the composed filter pipeline rejects a request
(writes a rejection), the handlers that executed form a non-empty prefix
of the fixed stage order — so no later stage runs — and the Forwarder is
never invoked for that request. -/
theorem c1_short_circuit (cfg : Config) (up : Option HttpResponse) (r : Request)
    (reason : String) (resp : HttpResponse) (ev : Log)
    (h : (runFilter cfg up r).2 = .rejected reason resp ev) :
    ∃ k, 0 < k ∧ k ≤ 5 ∧ (runFilter cfg up r).1 = stageOrder.take k ∧
      StageId.forwarder ∉ (runFilter cfg up r).1 := by
  obtain ⟨⟨k, hk0, hkle, htr⟩, _⟩ :=
    runStages_rejected_spec (filterStages cfg) (forwardHandler up)
      (fun r2 re rp e2 => forwardHandler_ne_rejected up r2 re rp e2) r reason resp ev h
  have hids : (filterStages cfg).map (fun s => s.1) = stageOrder := rfl
  rw [hids] at htr
  unfold runFilter
  refine ⟨k, hk0, by simpa [filterStages] using hkle, htr, ?_⟩
  rw [htr]
  intro hmem
  have hsub : StageId.forwarder ∈ stageOrder := List.take_subset k stageOrder hmem
  simp [stageOrder] at hsub

/-- Witness for C1 at a concrete rejected request. -/
theorem c1_short_circuit_witness :
    ∃ k, 0 < k ∧ k ≤ 5 ∧
      (runFilter sampleConfig (some sampleUpstream) (sampleRequest "hello")).1 = stageOrder.take k ∧
      StageId.forwarder ∉ (runFilter sampleConfig (some sampleUpstream) (sampleRequest "hello")).1 :=
  c1_short_circuit sampleConfig (some sampleUpstream) (sampleRequest "hello")
    "INVALID_JSON" (rejectionResponse "INVALID_JSON")
    (failureEvent (sampleRequest "hello") "INVALID_JSON") (by rfl)

/-- C2 (amended): a request whose body is empty, or is valid JSON whose
trimmed form opens with neither a brace nor a bracket, extracts to the
empty transaction sequence without error, every rule stage passes (with a
non-negative maxTransactions threshold, as the configuration data model
requires), and the request reaches the Forwarder.  For a non-empty body
that is not valid JSON the extraction result is still empty, but the
INVALID_JSON stage rejects the request before the transaction stages. -/
theorem c2_not_transaction_shaped (cfg : Config) (up : Option HttpResponse) (r : Request)
    (hctx : r.ctx = none)
    (h1 : firstCharIs (goTrimSpace r.body) '\x7b' = false)
    (h2 : firstCharIs (goTrimSpace r.body) '[' = false)
    (hok : r.body = "" ∨ jsonValid r.body = true)
    (hmax : 0 ≤ cfg.maxTransactions) :
    getTransactions r = .ok ([], some []) ∧
    runFilter cfg up r =
      (stageOrder ++ [StageId.forwarder],
        forwardCallToNodeos up { r with ctx := some [] }) := by
  have hget := getTransactions_notShaped r hctx h1 h2
  have hj : validateJSONCheck r = .pass r :=
    hok.elim (validateJSONCheck_pass_empty r) (validateJSONCheck_pass_valid r)
  have hget1 : getTransactions { r with ctx := some ([] : List Transaction) } = .ok ([], some []) :=
    getTransactions_cached _ [] rfl
  have s2 : validateMaxTransactionsCheck cfg r = .pass { r with ctx := some [] } :=
    validateMaxTransactionsCheck_pass cfg r [] (some []) hget (by simp; omega)
  have s3 : validateTransactionSizeCheck cfg { r with ctx := some [] } =
      .pass { r with ctx := some [] } :=
    validateTransactionSizeCheck_pass cfg _ [] (some []) hget1 (by simp)
  have s4 : validateMaxSignaturesCheck cfg { r with ctx := some [] } =
      .pass { r with ctx := some [] } :=
    validateMaxSignaturesCheck_pass cfg _ [] (some []) hget1 (by simp)
  have s5 : validateContractCheck cfg { r with ctx := some [] } =
      .pass { r with ctx := some [] } :=
    validateContractCheck_pass cfg _ [] (some []) hget1 (by simp)
  refine ⟨hget, ?_⟩
  unfold runFilter filterStages
  rw [runStages_cons, liftStage_pass _ _ _ _ _ hj,
      runStages_cons, liftStage_pass _ _ _ _ _ s2,
      runStages_cons, liftStage_pass _ _ _ _ _ s3,
      runStages_cons, liftStage_pass _ _ _ _ _ s4,
      runStages_cons, liftStage_pass _ _ _ _ _ s5]
  rfl

/-- Counterexample for C2 as stated: the body "hello" is neither empty
nor brace- nor bracket-opening, extraction does yield the empty sequence,
but the request never reaches the Forwarder — the INVALID_JSON stage
rejects it. -/
theorem c2_counterexample :
    firstCharIs (goTrimSpace "notjson") '\x7b' = false ∧
    firstCharIs (goTrimSpace "notjson") '[' = false ∧
    ("notjson" : String) ≠ "" ∧
    getTransactions (sampleRequest "notjson") = .ok ([], some []) ∧
    (runFilter sampleConfig (some sampleUpstream) (sampleRequest "notjson")).2 =
      .rejected "INVALID_JSON" (rejectionResponse "INVALID_JSON")
        (failureEvent (sampleRequest "notjson") "INVALID_JSON") ∧
    StageId.forwarder ∉ (runFilter sampleConfig (some sampleUpstream) (sampleRequest "notjson")).1 := by
  refine ⟨rfl, rfl, by decide, rfl, rfl, ?_⟩
  have htr : (runFilter sampleConfig (some sampleUpstream) (sampleRequest "notjson")).1 =
      [StageId.vJson] := rfl
  rw [htr]
  decide

/-- Witness for C2 at a concrete valid-JSON non-transaction body. -/
theorem c2_not_transaction_shaped_witness :
    getTransactions (sampleRequest "true") = .ok ([], some []) ∧
    runFilter sampleConfig (some sampleUpstream) (sampleRequest "true") =
      (stageOrder ++ [StageId.forwarder],
        forwardCallToNodeos (some sampleUpstream) { sampleRequest "true" with ctx := some [] }) :=
  c2_not_transaction_shaped sampleConfig (some sampleUpstream) (sampleRequest "true")
    rfl rfl rfl (Or.inr rfl) (by decide)

/-- C3: extraction is idempotent per request: after a successful first
extraction, a second call on the request carrying the produced context
returns the identical cached sequence, whatever the body now holds — the
body is neither re-read nor re-parsed. -/
theorem c3_extraction_idempotent (r : Request) (ts : List Transaction)
    (ctx : Option (List Transaction)) (h : getTransactions r = .ok (ts, ctx))
    (r2 : Request) (h2 : r2.ctx = ctx) :
    getTransactions r2 = .ok (ts, ctx) := by
  have hc := getTransactions_ctx_eq r ts ctx h
  subst hc
  exact getTransactions_cached r2 ts h2

/-- Witness for C3: the second request carries the cached context but a
different body, and extraction still returns the cached sequence. -/
theorem c3_extraction_idempotent_witness :
    getTransactions { sampleRequest "a different body" with ctx := some [] } =
      .ok ([], some []) :=
  c3_extraction_idempotent (sampleRequest "[]") [] (some []) rfl
    { sampleRequest "a different body" with ctx := some [] } rfl

/-- C4 (amended): when parsing the body into transactions fails, every
rule stage that obtains transactions rejects with the PARSE_ERROR reason
and halts without partial evaluation; in the composed pipeline the count
stage is the one that hits the failure, no later stage or Forwarder runs,
and — contrary to the original claim — the PARSE_ERROR rejection does
carry the client-facing 400 response at the rule-stage call sites, since
each passes the response writer to logFailure. -/
theorem c4_parse_error (cfg : Config) (up : Option HttpResponse) (r : Request) (e : String)
    (hg : getTransactions r = .error e)
    (hvalid : jsonValid r.body = true) :
    e = "PARSE_ERROR" ∧
    validateMaxTransactionsCheck cfg r = .reject "PARSE_ERROR" ∧
    validateTransactionSizeCheck cfg r = .reject "PARSE_ERROR" ∧
    validateMaxSignaturesCheck cfg r = .reject "PARSE_ERROR" ∧
    validateContractCheck cfg r = .reject "PARSE_ERROR" ∧
    runFilter cfg up r =
      ([StageId.vJson, StageId.vMaxTransactions],
        .rejected "PARSE_ERROR" (rejectionResponse "PARSE_ERROR")
          (failureEvent r "PARSE_ERROR")) ∧
    (rejectionResponse "PARSE_ERROR").status = 400 := by
  have he := getTransactions_error_eq r e hg
  subst he
  refine ⟨rfl, validateMaxTransactionsCheck_error cfg r _ hg,
    validateTransactionSizeCheck_error cfg r _ hg,
    validateMaxSignaturesCheck_error cfg r _ hg,
    validateContractCheck_error cfg r _ hg, ?_, rfl⟩
  unfold runFilter filterStages
  rw [runStages_cons, liftStage_pass _ _ _ _ _ (validateJSONCheck_pass_valid r hvalid),
      runStages_cons,
      liftStage_reject _ _ _ _ _ (validateMaxTransactionsCheck_error cfg r _ hg)]

/-- Counterexample for the response conjunct of C4: at a concrete body
whose JSON is valid but does not fit the Transaction shape, the
PARSE_ERROR rejection of the pipeline does carry a client-facing
response: status 400, the X-REJECTED-BY header, and the marshalled
ErrorMessage body. -/
theorem c4_counterexample :
    getTransactions (sampleRequest "\x7b\"signatures\":5\x7d") = .error "PARSE_ERROR" ∧
    (runFilter sampleConfig (some sampleUpstream) (sampleRequest "\x7b\"signatures\":5\x7d")).2 =
      .rejected "PARSE_ERROR" (rejectionResponse "PARSE_ERROR")
        (failureEvent (sampleRequest "\x7b\"signatures\":5\x7d") "PARSE_ERROR") ∧
    (rejectionResponse "PARSE_ERROR").status = 400 ∧
    ("X-REJECTED-BY", ["patroneos"]) ∈ (rejectionResponse "PARSE_ERROR").headers ∧
    (rejectionResponse "PARSE_ERROR").body = "\x7b\"message\":\"PARSE_ERROR\",\"code\":400\x7d" := by
  refine ⟨rfl, rfl, rfl, ?_, rfl⟩
  decide

/-- Witness for C4 at a concrete parse-error body. -/
theorem c4_parse_error_witness :
    jsonValid "\x7b\"actions\":5\x7d" = true ∧
    getTransactions (sampleRequest "\x7b\"actions\":5\x7d") = .error "PARSE_ERROR" ∧
    runFilter sampleConfig (some sampleUpstream) (sampleRequest "\x7b\"actions\":5\x7d") =
      ([StageId.vJson, StageId.vMaxTransactions],
        .rejected "PARSE_ERROR" (rejectionResponse "PARSE_ERROR")
          (failureEvent (sampleRequest "\x7b\"actions\":5\x7d") "PARSE_ERROR")) :=
  ⟨rfl, rfl,
    (c4_parse_error sampleConfig (some sampleUpstream)
      (sampleRequest "\x7b\"actions\":5\x7d") "PARSE_ERROR" rfl rfl).2.2.2.2.2.1⟩

/-- C5: a request rejected for a policy-violation reason gets a client
response of status 400, the JSON body naming the reason with code 400,
and the X-REJECTED-BY patroneos header. -/
theorem c5_rejection_format (cfg : Config) (up : Option HttpResponse) (r : Request)
    (reason : String) (resp : HttpResponse) (ev : Log)
    (h : (runFilter cfg up r).2 = .rejected reason resp ev)
    (hmem : reason ∈ ["INVALID_JSON", "TOO_MANY_TRANSACTIONS", "INVALID_TRANSACTION_SIZE",
      "INVALID_NUMBER_SIGNATURES", "BLACKLISTED_CONTRACT"]) :
    resp.status = 400 ∧
    resp.body = "\x7b\"message\":\"" ++ reason ++ "\",\"code\":400\x7d" ∧
    ("X-REJECTED-BY", ["patroneos"]) ∈ resp.headers := by
  obtain ⟨_, hresp⟩ :=
    runStages_rejected_spec (filterStages cfg) (forwardHandler up)
      (fun r2 re rp e2 => forwardHandler_ne_rejected up r2 re rp e2) r reason resp ev h
  subst hresp
  refine ⟨rfl, ?_, by simp [rejectionResponse]⟩
  simp only [List.mem_cons, List.not_mem_nil, or_false] at hmem
  rcases hmem with h1 | h1 | h1 | h1 | h1 <;> subst h1 <;> rfl

/-- Witness for C5 at the blacklist scenario of the filter tests. -/
theorem c5_rejection_format_witness :
    (rejectionResponse "BLACKLISTED_CONTRACT").status = 400 ∧
    (rejectionResponse "BLACKLISTED_CONTRACT").body =
      "\x7b\"message\":\"" ++ "BLACKLISTED_CONTRACT" ++ "\",\"code\":400\x7d" ∧
    ("X-REJECTED-BY", ["patroneos"]) ∈ (rejectionResponse "BLACKLISTED_CONTRACT").headers :=
  c5_rejection_format sampleConfig (some sampleUpstream) (sampleRequest currencyBody)
    "BLACKLISTED_CONTRACT" (rejectionResponse "BLACKLISTED_CONTRACT")
    (failureEvent (sampleRequest currencyBody) "BLACKLISTED_CONTRACT") (by rfl) (by decide)

/-- C6: the transaction-count stage rejects with TOO_MANY_TRANSACTIONS
exactly when the number of extracted transactions strictly exceeds
maxTransactions; a batch whose count equals the threshold passes on. -/
theorem c6_max_transactions (cfg : Config) (r : Request) (ts : List Transaction)
    (ctx : Option (List Transaction)) (hg : getTransactions r = .ok (ts, ctx)) :
    (validateMaxTransactionsCheck cfg r = .reject "TOO_MANY_TRANSACTIONS" ↔
      (ts.length : Int) > cfg.maxTransactions) ∧
    ((ts.length : Int) ≤ cfg.maxTransactions →
      validateMaxTransactionsCheck cfg r = .pass { r with ctx := ctx }) := by
  unfold validateMaxTransactionsCheck
  rw [hg]
  dsimp only
  by_cases hcond : (ts.length : Int) > cfg.maxTransactions
  · rw [if_pos hcond]
    exact ⟨⟨fun _ => hcond, fun _ => rfl⟩, fun hle => absurd hcond (not_lt.mpr hle)⟩
  · rw [if_neg hcond]
    exact ⟨⟨fun hr => StageResult.noConfusion hr, fun hgt => absurd hgt hcond⟩, fun _ => rfl⟩

/-- Witness for C6: with maxTransactions = 2, a two-element array passes
to the next stage and a three-element array is rejected. -/
theorem c6_max_transactions_witness :
    validateMaxTransactionsCheck sampleConfig (sampleRequest "[\x7b\x7d,\x7b\x7d]") =
      .pass { sampleRequest "[\x7b\x7d,\x7b\x7d]" with
                ctx := some [zeroTransaction, zeroTransaction] } ∧
    validateMaxTransactionsCheck sampleConfig (sampleRequest "[\x7b\x7d,\x7b\x7d,\x7b\x7d]") =
      .reject "TOO_MANY_TRANSACTIONS" :=
  ⟨(c6_max_transactions sampleConfig (sampleRequest "[\x7b\x7d,\x7b\x7d]")
      [zeroTransaction, zeroTransaction] (some [zeroTransaction, zeroTransaction]) rfl).2
      (by decide),
   (c6_max_transactions sampleConfig (sampleRequest "[\x7b\x7d,\x7b\x7d,\x7b\x7d]")
      [zeroTransaction, zeroTransaction, zeroTransaction]
      (some [zeroTransaction, zeroTransaction, zeroTransaction]) rfl).1.mpr (by decide)⟩

/-- C7: when the upstream round trip completes, the Forwarder emits a
success event exactly when the upstream status is 200; any other status
emits a TRANSACTION_FAILED failure event while the client still receives
the mirrored upstream response, not a 400 rejection. -/
theorem c7_forwarder_events (res : HttpResponse) (r : Request) :
    ∃ resp ev, forwardCallToNodeos (some res) r = .forwarded resp ev ∧
      (ev.success = true ↔ res.status = 200) ∧
      (res.status = 200 → ev = successEvent r "SUCCESS") ∧
      (res.status ≠ 200 → ev = failureEvent r "TRANSACTION_FAILED" ∧
        ev.success = false ∧ ev.message = "TRANSACTION_FAILED") ∧
      resp.status = res.status ∧ resp.body = res.body := by
  unfold forwardCallToNodeos
  dsimp only
  by_cases hs : res.status = 200
  · rw [if_pos hs]
    exact ⟨_, _, rfl, by simp [successEvent, hs], fun _ => rfl,
      fun hne => absurd hs hne, rfl, rfl⟩
  · rw [if_neg hs]
    exact ⟨_, _, rfl, by simp [failureEvent, hs], fun heq => absurd heq hs,
      fun _ => ⟨rfl, rfl, rfl⟩, rfl, rfl⟩

/-- C8: a request that passes every stage and completes its round trip is
answered with the upstream status, the upstream body byte for byte, and
exactly the upstream headers minus Content-Length. -/
theorem c8_upstream_mirrored (cfg : Config) (u : HttpResponse) (r : Request)
    (resp : HttpResponse) (ev : Log)
    (h : (runFilter cfg (some u) r).2 = .forwarded resp ev) :
    resp.status = u.status ∧ resp.body = u.body ∧
    resp.headers = u.headers.filter (fun kv => kv.1 ≠ "Content-Length") ∧
    (∀ kv ∈ u.headers, kv.1 ≠ "Content-Length" → kv ∈ resp.headers) ∧
    (∀ kv ∈ resp.headers, kv.1 ≠ "Content-Length") := by
  obtain ⟨r2, h2⟩ :=
    runStages_forwarded_final (filterStages cfg) (forwardHandler (some u)) r resp ev h
  unfold forwardHandler forwardCallToNodeos at h2
  simp at h2
  obtain ⟨hresp, -⟩ := h2
  rw [← hresp]
  refine ⟨rfl, rfl, rfl, ?_, ?_⟩
  · intro kv hmem hne
    simp [copyHeaders]
    exact ⟨hmem, hne⟩
  · intro kv hmem
    simp [copyHeaders] at hmem
    exact hmem.2

/-- Witness for C8 at a concrete all-pass run. -/
theorem c8_upstream_mirrored_witness :
    (⟨200, [("X-Up", ["yes"])], "hello"⟩ : HttpResponse).status = sampleUpstream.status ∧
    (⟨200, [("X-Up", ["yes"])], "hello"⟩ : HttpResponse).body = sampleUpstream.body ∧
    (⟨200, [("X-Up", ["yes"])], "hello"⟩ : HttpResponse).headers =
      sampleUpstream.headers.filter (fun kv => kv.1 ≠ "Content-Length") ∧
    (∀ kv ∈ sampleUpstream.headers, kv.1 ≠ "Content-Length" →
      kv ∈ (⟨200, [("X-Up", ["yes"])], "hello"⟩ : HttpResponse).headers) ∧
    (∀ kv ∈ (⟨200, [("X-Up", ["yes"])], "hello"⟩ : HttpResponse).headers,
      kv.1 ≠ "Content-Length") :=
  c8_upstream_mirrored sampleConfig sampleUpstream (sampleRequest "")
    ⟨200, [("X-Up", ["yes"])], "hello"⟩ (successEvent (sampleRequest "") "SUCCESS") (by rfl)

/-- C9 (amended): a configuration POST does not replace the configuration
wholesale — json.Unmarshal decodes the body over the existing value, so a
field named in the body is replaced, a field the body omits keeps its
previous value, and the blacklist map is merged; the raw body bytes are
persisted; a subsequent GET returns the merged configuration (not, in
general, field values equivalent to the POSTed body alone). -/
theorem c9_config_post_merge (cfg : Config) (body : String) (j : Json) (p : ConfigPatch)
    (hj : parseJsonText body = some j) (hp : decodeConfigPatch j = some p) :
    (updateConfig cfg "POST" body).config = applyConfigPatch cfg p ∧
    (updateConfig cfg "POST" body).fileWrite = some body ∧
    (updateConfig cfg "POST" body).config.listenPort = p.listenPort.getD cfg.listenPort ∧
    (updateConfig cfg "POST" body).config.nodeosProtocol =
      p.nodeosProtocol.getD cfg.nodeosProtocol ∧
    (updateConfig cfg "POST" body).config.nodeosUrl = p.nodeosUrl.getD cfg.nodeosUrl ∧
    (updateConfig cfg "POST" body).config.nodeosPort = p.nodeosPort.getD cfg.nodeosPort ∧
    (updateConfig cfg "POST" body).config.maxSignatures =
      p.maxSignatures.getD cfg.maxSignatures ∧
    (updateConfig cfg "POST" body).config.maxTransactionSize =
      p.maxTransactionSize.getD cfg.maxTransactionSize ∧
    (updateConfig cfg "POST" body).config.maxTransactions =
      p.maxTransactions.getD cfg.maxTransactions ∧
    (updateConfig cfg "POST" body).config.logEndpoints =
      p.logEndpoints.getD cfg.logEndpoints ∧
    (updateConfig cfg "POST" body).config.contractBlackList =
      (match p.contractBlackList with
        | none => cfg.contractBlackList
        | some add => mergeBlackList cfg.contractBlackList add) ∧
    (updateConfig (updateConfig cfg "POST" body).config "GET" "").response =
      some (applyConfigPatch cfg p) := by
  have hu : unmarshalConfigInto cfg body = some (applyConfigPatch cfg p) := by
    unfold unmarshalConfigInto
    rw [hj]
    dsimp only [Option.bind]
    rw [hp]
  have hpost : updateConfig cfg "POST" body =
      ⟨applyConfigPatch cfg p, none, some body⟩ := by
    unfold updateConfig
    rw [if_neg (by decide), if_pos rfl, hu]
  rw [hpost]
  refine ⟨rfl, rfl, rfl, rfl, rfl, rfl, rfl, rfl, rfl, rfl, rfl, ?_⟩
  unfold updateConfig
  rw [if_pos rfl]

/-- Counterexample for C9 as stated: a POST whose body sets only
listenPort leaves the omitted maxSignatures field of the previous
configuration alive (the update merges rather than replaces), and a
subsequent GET reports that surviving old value. -/
theorem c9_counterexample :
    (parseJsonText "\x7b\"listenPort\":\"9000\"\x7d").bind decodeConfigPatch =
      some ⟨some "9000", none, none, none, none, none, none, none, none, none, none⟩ ∧
    sampleConfig.maxSignatures = 1 ∧
    (updateConfig sampleConfig "POST" "\x7b\"listenPort\":\"9000\"\x7d").config.listenPort =
      "9000" ∧
    (updateConfig sampleConfig "POST" "\x7b\"listenPort\":\"9000\"\x7d").config.maxSignatures =
      1 ∧
    (updateConfig
        ((updateConfig sampleConfig "POST" "\x7b\"listenPort\":\"9000\"\x7d").config)
        "GET" "").response =
      some ((updateConfig sampleConfig "POST" "\x7b\"listenPort\":\"9000\"\x7d").config) := by
  refine ⟨rfl, rfl, rfl, rfl, rfl⟩

/-- Witness for C9 at a concrete POST body. -/
theorem c9_config_post_merge_witness :
    (updateConfig sampleConfig "POST" "\x7b\"maxTransactions\":5\x7d").config =
      applyConfigPatch sampleConfig
        ⟨none, none, none, none, none, none, none, some 5, none, none, none⟩ ∧
    (updateConfig sampleConfig "POST" "\x7b\"maxTransactions\":5\x7d").fileWrite =
      some "\x7b\"maxTransactions\":5\x7d" :=
  ⟨(c9_config_post_merge sampleConfig "\x7b\"maxTransactions\":5\x7d"
      (.obj [("maxTransactions", .num 5 true)])
      ⟨none, none, none, none, none, none, none, some 5, none, none, none⟩ rfl rfl).1,
   (c9_config_post_merge sampleConfig "\x7b\"maxTransactions\":5\x7d"
      (.obj [("maxTransactions", .num 5 true)])
      ⟨none, none, none, none, none, none, none, some 5, none, none, none⟩ rfl rfl).2.1⟩

/-- The blacklist test reads only the keys of the map. -/
theorem blackListHasKey_map_fst (bl : List (String × Bool)) (c : String) :
    blackListHasKey bl c = (bl.map Prod.fst).any (fun k => k = c) := by
  unfold blackListHasKey
  induction bl with
  | nil => rfl
  | cons hd tl ih => simp [ih]

/-- C10: the blacklist stage rejects with BLACKLISTED_CONTRACT exactly
when some action names a contract code that occurs as a key of the
blacklist map — the boolean stored under the key is never consulted, so
any two blacklists with the same keys behave identically and an entry
mapped to false still causes rejection. -/
theorem c10_blacklist_key_only (cfg : Config) (r : Request) (ts : List Transaction)
    (ctx : Option (List Transaction)) (hg : getTransactions r = .ok (ts, ctx)) :
    (validateContractCheck cfg r = .reject "BLACKLISTED_CONTRACT" ↔
      ∃ t ∈ ts, ∃ a ∈ Transaction.actions t,
        blackListHasKey cfg.contractBlackList (Action.code a) = true) ∧
    (∀ bl2 : List (String × Bool),
      bl2.map Prod.fst = cfg.contractBlackList.map Prod.fst →
      validateContractCheck { cfg with contractBlackList := bl2 } r =
        validateContractCheck cfg r) := by
  constructor
  · unfold validateContractCheck
    rw [hg]
    dsimp only
    by_cases hb : ts.any (fun t =>
        t.actions.any (fun a => blackListHasKey cfg.contractBlackList a.code)) = true
    · rw [if_pos hb]
      simp only [List.any_eq_true] at hb
      exact ⟨fun _ => hb, fun _ => rfl⟩
    · rw [if_neg hb]
      simp only [List.any_eq_true] at hb
      exact ⟨fun hr => StageResult.noConfusion hr, fun hex => absurd hex hb⟩
  · intro bl2 hbl
    unfold validateContractCheck
    rw [hg]
    dsimp only
    have hkey : ∀ c, blackListHasKey bl2 c = blackListHasKey cfg.contractBlackList c := by
      intro c
      rw [blackListHasKey_map_fst, blackListHasKey_map_fst, hbl]
    simp only [hkey]

/-- Witness for C10: an entry mapped to false still causes rejection. -/
theorem c10_blacklist_key_only_witness :
    validateContractCheck { sampleConfig with contractBlackList := [("currency", false)] }
      (sampleRequest currencyBody) = .reject "BLACKLISTED_CONTRACT" :=
  (c10_blacklist_key_only { sampleConfig with contractBlackList := [("currency", false)] }
    (sampleRequest currencyBody) [currencyTransaction] (some [currencyTransaction]) rfl).1.mpr
    ⟨currencyTransaction, List.Mem.head _, currencyAction, List.Mem.head _, rfl⟩

/-- Witness for C7 at a concrete failing upstream status. -/
theorem c7_forwarder_events_witness :
    ∃ resp ev,
      forwardCallToNodeos (some ⟨500, [], "err"⟩) (sampleRequest "x") = .forwarded resp ev ∧
      (ev.success = true ↔ (⟨500, [], "err"⟩ : HttpResponse).status = 200) ∧
      ((⟨500, [], "err"⟩ : HttpResponse).status = 200 →
        ev = successEvent (sampleRequest "x") "SUCCESS") ∧
      ((⟨500, [], "err"⟩ : HttpResponse).status ≠ 200 →
        ev = failureEvent (sampleRequest "x") "TRANSACTION_FAILED" ∧
        ev.success = false ∧ ev.message = "TRANSACTION_FAILED") ∧
      resp.status = (⟨500, [], "err"⟩ : HttpResponse).status ∧
      resp.body = (⟨500, [], "err"⟩ : HttpResponse).body :=
  c7_forwarder_events ⟨500, [], "err"⟩ (sampleRequest "x")
end Patroneos
